import Mathlib

/-!
# Gulf Global Tours API — verification of the booking/content core

Shallow embedding of `src/main.py` and `src/schemas.py`: a small
booking/content service over a document store.  Documents are modelled as
association lists of field name to field value, collections as lists of
documents in store-native order, and the store itself as a record of the
five collections together with a counter supplying the store-generated
identifiers.  Fallible request handlers return `Except`/`Option` values,
and handlers that may write return the post-state explicitly, so "no
write occurs" is literal equality of states.

The repository imports `create_document` and `get_documents` from a
`database` module that is not among the source files; those two
operations are modelled from the specification's collaborator contract
(§6) and are marked `Modelled from the spec:` below.
-/

deriving instance DecidableEq for Except

/-- A field value of a stored document.  Python `None` is `Value.none`;
floats are modelled as exact rationals (every float literal in the
program is exactly representable); the lists occurring in this program
are lists of strings; `Value.oid` is the store-native identifier handle
(`bson.ObjectId`), as opposed to its plain-string rendering. -/
inductive Value where
  | str (s : String)
  | int (n : Int)
  | float (q : ℚ)
  | bool (b : Bool)
  | strList (l : List String)
  | oid (n : Nat)
  | none
deriving DecidableEq, Repr

/-- A stored document: an association list from field names to values
(Python dict with string keys; keys are unique in every document this
program stores, and lookups take the first binding). -/
abbrev Doc := List (String × Value)

/-- Python `d.get(k)` / `d[k]`: the value of field `k`, if present. -/
def getVal (d : Doc) (k : String) : Option Value :=
  (d.find? (fun p => p.1 == k)).map (fun p => p.2)

/-- Python `d.get(k, dflt)`: the value of field `k`, or `dflt` when the
field is absent (note: a field stored as `None` is present, so `dflt` is
not used for it). -/
def getValD (d : Doc) (k : String) (dflt : Value) : Value :=
  (getVal d k).getD dflt

/-- Python `d[k] = v` on a dict whose key `k` may be present: replaces
the value at `k` in place, preserving field order. -/
def setVal (d : Doc) (k : String) (v : Value) : Doc :=
  d.map (fun p => if p.1 == k then (k, v) else p)

/-- Python `str(...)` on the field values this program renders:
`str` of an int is its decimal form, of `bool` is `True`/`False`, of
`None` is `None`, and a store handle renders as its hexadecimal text
(`Modelled from the spec:` the exact digit string of the external
`bson.ObjectId.__str__` is opaque; it is modelled as hexadecimal digits,
a plain string either way).  The rendering of non-integral floats and of
lists is not exercised by any endpoint under verification. -/
def Value.render : Value → String
  | .str s => s
  | .int n => toString n
  | .float q => toString q
  | .bool b => cond b "True" "False"
  | .strList l => "[" ++ String.intercalate ", " l ++ "]"
  | .oid n => String.mk (Nat.toDigits 16 n)
  | .none => "None"

/-- Python f-string interpolation of `d.get(k)`: renders the value when
the field is present and `None` when it is absent. -/
def renderOpt : Option Value → String
  | some v => v.render
  | Option.none => "None"

/-- Numeric reading of a value, for Python's `>` between
`people_count : int` and a stored capacity: Python compares `int` with
`int`, `float` and `bool` (`True == 1`, `False == 0`) and raises
`TypeError` otherwise. -/
def Value.toNum? : Value → Option ℚ
  | .int n => some (n : ℚ)
  | .float q => some q
  | .bool b => some (cond b 1 0)
  | _ => Option.none

/-- Schema `Booking` (`schemas.py` lines 24–32): the booking submission after
schema validation.  `date` is modelled by its ISO string; `EmailStr`
syntax checking and the `ge=1` bound on `people_count` happen in the
schema layer before the handler runs, so handler-level facts that need
them take them as hypotheses. -/
structure Booking where
  trip_type : String
  name : String
  email : String
  phone : String
  date : String
  people_count : Int
  notes : Option String
  status : String := "pending"
deriving DecidableEq, Repr

/-- Pydantic construction of a `Booking` from a request body: `notes`
and `status` may be omitted; an omitted `status` defaults to
`"pending"` (`schemas.py` line 32). -/
def Booking.ofInput (trip_type name email phone date : String)
    (people_count : Int) (notes : Option String)
    (status? : Option String) : Booking :=
  { trip_type := trip_type, name := name, email := email, phone := phone,
    date := date, people_count := people_count, notes := notes,
    status := status?.getD "pending" }

/-- Pydantic `model_dump()` of a `Booking`: the document persisted by
the booking endpoint, fields in declaration order. -/
def Booking.model_dump (b : Booking) : Doc :=
  [("trip_type", .str b.trip_type), ("name", .str b.name),
   ("email", .str b.email), ("phone", .str b.phone),
   ("date", .str b.date), ("people_count", .int b.people_count),
   ("notes", match b.notes with | some s => .str s | Option.none => .none),
   ("status", .str b.status)]

/-- Schema `Trip` (`schemas.py` lines 11–22).  `is_active` defaults to `true`. -/
structure Trip where
  title : String
  trip_type : String
  description : String
  location : String
  price_per_person : ℚ
  capacity : Int
  duration_hours : ℚ
  highlights : List String
  includes : List String
  images : List String
  is_active : Bool := true
deriving DecidableEq, Repr

/-- Pydantic construction of a `Trip` from input with `is_active`
optional: an omitted `is_active` defaults to `true` (`schemas.py`
line 22). -/
def Trip.ofInput (title trip_type description location : String)
    (price_per_person : ℚ) (capacity : Int) (duration_hours : ℚ)
    (highlights includes images : List String)
    (is_active? : Option Bool) : Trip :=
  { title := title, trip_type := trip_type, description := description,
    location := location, price_per_person := price_per_person,
    capacity := capacity, duration_hours := duration_hours,
    highlights := highlights, includes := includes, images := images,
    is_active := is_active?.getD true }

/-- Pydantic `model_dump()` of a `Trip`, fields in declaration order. -/
def Trip.model_dump (t : Trip) : Doc :=
  [("title", .str t.title), ("trip_type", .str t.trip_type),
   ("description", .str t.description), ("location", .str t.location),
   ("price_per_person", .float t.price_per_person),
   ("capacity", .int t.capacity),
   ("duration_hours", .float t.duration_hours),
   ("highlights", .strList t.highlights),
   ("includes", .strList t.includes),
   ("images", .strList t.images),
   ("is_active", .bool t.is_active)]

/-- The document store: the five collections in store-native order, plus
the counter from which store-generated identifiers are drawn. -/
structure DB where
  trip : List Doc
  faq : List Doc
  booking : List Doc
  review : List Doc
  inquiry : List Doc
  nextId : Nat
deriving DecidableEq, Repr

/-- An error surfaced by a handler: `Err.http status detail` is FastAPI's
`HTTPException(status_code, detail)`; `Err.typeError` is a Python
`TypeError` escaping the handler (comparing `people_count` with a
non-numeric stored capacity), surfaced as a generic server error. -/
inductive Err where
  | http (status : Nat) (detail : String)
  | typeError
deriving DecidableEq, Repr

/-- The acknowledgement body `{"status": ..., "id": ...}` returned by the
write endpoints. -/
structure BookResp where
  status : String
  id : Nat
deriving DecidableEq, Repr

/-- The filter `{"trip_type": tt, "is_active": True}` passed to
`find_one` in `create_booking` (`main.py` line 164), under the store's
equality-filter semantics: a document matches when the field is present
and equal to the literal. -/
def tripMatch (trip_type : String) (d : Doc) : Bool :=
  getVal d "trip_type" == some (Value.str trip_type) &&
    getVal d "is_active" == some (Value.bool true)

/-- Attach a freshly generated identifier to a document being inserted. -/
def withId (i : Nat) (d : Doc) : Doc := ("_id", Value.oid i) :: d

/-- Identifiers assigned to a batch of inserted documents, in order. -/
def assignIds (start : Nat) : List Doc → List Doc
  | [] => []
  | d :: ds => withId start d :: assignIds (start + 1) ds

/-- Modelled from the spec: `create_document` from the missing
`database` module.  §4.2/§6: persist the submission as a new document
via `insert_one(collection, document)`, which appends it in store-native
order and returns the store-generated unique identifier. -/
def create_document_booking (db : DB) (payload : Booking) : DB × Nat :=
  ({ db with booking := db.booking ++ [withId db.nextId payload.model_dump],
             nextId := db.nextId + 1 },
   db.nextId)

/-- Handler `create_booking` (`main.py` lines 161–171), the `POST /book`
handler.  Returns the post-state together with either the
acknowledgement or the error; both error paths leave the store
untouched.  Line 167 compares against `trip.get("capacity", 0)` while
line 168 renders `trip.get("capacity")` (no default) into the message. -/
def create_booking (db : DB) (payload : Booking) : DB × Except Err BookResp :=
  match db.trip.find? (tripMatch payload.trip_type) with
  | Option.none => (db, .error (.http 404 "Trip not found"))
  | some trip =>
    match (getValD trip "capacity" (Value.int 0)).toNum? with
    | Option.none => (db, .error .typeError)
    | some cap =>
      if cap < (payload.people_count : ℚ) then
        (db, .error (.http 400
          ("Maximum capacity is " ++ renderOpt (getVal trip "capacity")
            ++ " for this trip")))
      else
        let r := create_document_booking db payload
        (r.1, .ok { status := "received", id := r.2 })

-- Concrete store states and submissions used to instantiate the
-- theorems below on explicit inputs.

/-- A stored active trip with capacity 10 (the sunset trip shape). -/
def exTripDoc : Doc :=
  [("_id", Value.oid 0), ("trip_type", Value.str "sunset"),
   ("capacity", Value.int 10), ("is_active", Value.bool true)]

/-- A store holding exactly `exTripDoc`. -/
def exDB : DB :=
  { trip := [exTripDoc], faq := [], booking := [], review := [],
    inquiry := [], nextId := 1 }

/-- A booking submission for `n` people on the sunset trip. -/
def exBooking (n : Int) : Booking :=
  { trip_type := "sunset", name := "Amal", email := "amal@example.com",
    phone := "+968", date := "2026-01-01", people_count := n,
    notes := Option.none, status := "pending" }

-- Seed data (`main.py` lines 69–130).

/-- The first hard-coded seed trip (`main.py` lines 75–95).  `is_active`
is not supplied and takes its schema default. -/
def seedTrip1 : Trip :=
  { title := "Dimaniyat Island Day Trip", trip_type := "dimaniyat",
    description := "Explore the pristine Dimaniyat Islands aboard our 11.3m Looker 370 glass-bottom boat. Snorkel vibrant reefs, spot sea turtles, and enjoy a beach stop.",
    location := "Dimaniyat Islands, Oman", price_per_person := 35,
    capacity := 20, duration_hours := 5,
    highlights := ["Snorkeling coral reefs", "Sea turtles and marine life",
      "Beachtime on a protected island", "Glass-bottom reef viewing"],
    includes := ["Captain & crew", "Snorkel gear", "Water & soft drinks"],
    images := ["/images/dimaniyat-1.jpg", "/images/dimaniyat-2.jpg",
      "/images/looker370.jpg"] }

/-- The second hard-coded seed trip (`main.py` lines 96–116). -/
def seedTrip2 : Trip :=
  { title := "Muscat Sunset Cruise", trip_type := "sunset",
    description := "A golden-hour cruise along Muscat\u2019s coastline aboard our Looker 370. Take in Al Alam Palace, Muttrah Corniche, and dramatic sea cliffs as the sun sets.",
    location := "Muscat Coastline, Oman", price_per_person := 20,
    capacity := 10, duration_hours := 2,
    highlights := ["Golden hour views", "Iconic Muscat landmarks",
      "Relaxed vibes on calm waters", "Great photo opportunities"],
    includes := ["Captain & crew", "Water & soft drinks"],
    images := ["/images/sunset-1.jpg", "/images/sunset-2.jpg",
      "/images/looker370.jpg"] }

/-- Literal `seed_trips` (`main.py` lines 74–117): the two hard-coded Trip
documents, as dumped by the schema layer. -/
def seed_trips : List Doc := [seedTrip1.model_dump, seedTrip2.model_dump]

/-- The four hard-coded FAQ documents (`main.py` lines 123–128). -/
def seed_faqs : List Doc :=
  [[("question", .str "Where do trips depart from?"),
    ("answer", .str "Muscat, Oman. Exact marina details shared upon booking."),
    ("category", .str "general"), ("order", .int 1)],
   [("question", .str "How many guests can join?"),
    ("answer", .str "Up to 18-20 for Dimaniyat and 8-10 for sunset trips."),
    ("category", .str "capacity"), ("order", .int 2)],
   [("question", .str "What should I bring?"),
    ("answer", .str "Sunscreen, hat, towel, and swimwear. We provide water, soft drinks, and snorkel gear for day trips."),
    ("category", .str "prep"), ("order", .int 3)],
   [("question", .str "Is the glass bottom safe?"),
    ("answer", .str "Yes. The Looker 370 is purpose-built with reinforced glass for reef viewing."),
    ("category", .str "safety"), ("order", .int 4)]]

/-- Modelled from the spec: `insert_many(collection, documents)` (§6):
appends the batch in order, each document receiving a store-generated
identifier. -/
def insertMany (col : List Doc) (nextId : Nat) (ds : List Doc) :
    List Doc × Nat :=
  (col ++ assignIds nextId ds, nextId + ds.length)

/-- Handler `seed` (`main.py` lines 69–130), the `POST /seed` handler:
if the trip collection holds zero documents (`count_documents({})`),
insert the two hard-coded trips; independently, if the faq collection
holds zero documents, insert the four hard-coded FAQs. -/
def seed (db : DB) : DB :=
  let db1 :=
    if db.trip.length = 0 then
      let r := insertMany db.trip db.nextId seed_trips
      { db with trip := r.1, nextId := r.2 }
    else db
  if db1.faq.length = 0 then
    let r := insertMany db1.faq db1.nextId seed_faqs
    { db1 with faq := r.1, nextId := r.2 }
  else db1

-- Content read endpoints (`main.py` lines 133–157).

/-- Modelled from the spec: `get_documents` from the missing `database`
module.  §6: `find_many(collection, filter, limit)` returns documents in
store-native order; every call site passes an empty (match-all) filter,
and `limit` caps the result at the first `limit` documents. -/
def get_documents (col : List Doc) (limit : Option Nat) : List Doc :=
  match limit with
  | Option.none => col
  | some n => col.take n

/-- One step of the jsonify loop `t["_id"] = str(t["_id"])`: rewrites
the identifier field to its string rendering; `Option.none` when the
document has no `_id` field (Python `KeyError`). -/
def jsonifyId (d : Doc) : Option Doc :=
  (getVal d "_id").map (fun v => setVal d "_id" (Value.str v.render))

/-- The jsonify loop over a fetched list, document by document; any
missing `_id` aborts the request. -/
def jsonifyAll : List Doc → Option (List Doc)
  | [] => some []
  | d :: ds =>
    match jsonifyId d with
    | Option.none => Option.none
    | some d2 => (jsonifyAll ds).map (fun l => d2 :: l)

/-- Total version of `jsonifyId`, used to describe the output of
`jsonifyAll` on documents that do have an `_id`. -/
def jsonifyForce (d : Doc) : Doc :=
  match getVal d "_id" with
  | some v => setVal d "_id" (Value.str v.render)
  | Option.none => d

/-- Handler `get_trips` (`main.py` lines 134–139), the `GET /trips` handler:
all trip documents, identifiers stringified. -/
def get_trips (db : DB) : Option (List Doc) :=
  jsonifyAll (get_documents db.trip Option.none)

/-- The sort key of the FAQ listing (`main.py` line 148):
`(x.get("order", 0), x.get("question", ""))`.  Faithful to the Python
key for documents whose `order`, when present, is an int and whose
`question`, when present, is a string (on a heterogeneously typed
collection Python's sort would raise `TypeError`); the theorems about
the FAQ listing carry that typing hypothesis, checked by `faqTyped`. -/
def faqKey (d : Doc) : Int × String :=
  ((match getValD d "order" (Value.int 0) with
    | .int n => n
    | _ => 0),
   (match getValD d "question" (Value.str "") with
    | .str s => s
    | _ => ""))

/-- The typing discipline under which `faqKey` matches the Python sort
key: `order` absent or an int, `question` absent or a string. -/
def faqTyped (d : Doc) : Bool :=
  (match getVal d "order" with
   | some (.int _) => true
   | Option.none => true
   | some _ => false) &&
  (match getVal d "question" with
   | some (.str _) => true
   | Option.none => true
   | some _ => false)

/-- Python's `<` on strings: strict lexicographic comparison of the
code-point sequences. -/
def charsLt : List Char → List Char → Bool
  | [], [] => false
  | [], _ :: _ => true
  | _ :: _, [] => false
  | a :: as, b :: bs => a < b || (a == b && charsLt as bs)

/-- Python's `<` on strings. -/
def strLt (a b : String) : Bool := charsLt a.data b.data

/-- Lexicographic "less or equal" on sort keys, the comparison under
which Python's stable `list.sort` output is characterised (the sort
places `a` no later than `b` exactly when the key of `b` is not
strictly below the key of `a`). -/
def keyLe (a b : Int × String) : Bool :=
  a.1 < b.1 || (a.1 == b.1 && !(strLt b.2 a.2))

/-- Document comparison used for the FAQ sort. -/
def faqLe (a b : Doc) : Bool := keyLe (faqKey a) (faqKey b)

/-- Handler `get_faqs` (`main.py` lines 142–149), the `GET /faqs` handler: the
first 100 faq documents in store-native order, identifiers stringified,
then stably sorted by `(order, question)`. -/
def get_faqs (db : DB) : Option (List Doc) :=
  (jsonifyAll (get_documents db.faq (some 100))).map
    (fun faqs => faqs.mergeSort faqLe)

/-- Handler `get_reviews` (`main.py` lines 152–157), the `GET /reviews` handler:
the first 50 review documents, identifiers stringified. -/
def get_reviews (db : DB) : Option (List Doc) :=
  jsonifyAll (get_documents db.review (some 50))

-- Identifier validation helper (`main.py` lines 27–31).

/-- Hexadecimal digit test for identifier parsing. -/
def isHexDigit (c : Char) : Bool :=
  c.isDigit || ('a' ≤ c && c ≤ 'f') || ('A' ≤ c && c ≤ 'F')

/-- Numeric value of a hex digit string. -/
def hexValue : List Char → Nat
  | [] => 0
  | c :: cs => hexValue cs * 16 + (if c.isDigit then c.toNat - 48
      else if 'a' ≤ c then c.toNat - 87 else c.toNat - 55)

/-- Modelled from the spec: `ObjectId(id_str)` from the external `bson`
library, treated as an abstract parser of store-native identifiers
(§4.6): a string parses exactly when it is a well-formed identifier
literal, modelled as 24 hexadecimal characters. -/
def parseObjectId (s : String) : Option Nat :=
  if s.length = 24 && s.toList.all isHexDigit then
    some (hexValue s.toList)
  else Option.none

/-- Helper `oid` (`main.py` lines 27–31): parse the string as a store-native
identifier, turning a parse failure into a 400 "Invalid id" error. -/
def oid (id_str : String) : Except Err Nat :=
  match parseObjectId id_str with
  | some v => .ok v
  | Option.none => .error (.http 400 "Invalid id")

/-- A store with all five collections empty. -/
def emptyDB : DB :=
  { trip := [], faq := [], booking := [], review := [], inquiry := [],
    nextId := 0 }

/-- A stored active trip with no `capacity` field. -/
def noCapTripDoc : Doc :=
  [("_id", Value.oid 0), ("trip_type", Value.str "sunset"),
   ("is_active", Value.bool true)]

/-- A store holding exactly `noCapTripDoc`. -/
def noCapDB : DB :=
  { trip := [noCapTripDoc], faq := [], booking := [], review := [],
    inquiry := [], nextId := 1 }

/-- A trip document matching on `trip_type` but with no `is_active`
field at all. -/
def noActiveTripDoc : Doc :=
  [("_id", Value.oid 0), ("trip_type", Value.str "sunset"),
   ("capacity", Value.int 10)]

/-- A store holding exactly `noActiveTripDoc`. -/
def noActiveDB : DB :=
  { trip := [noActiveTripDoc], faq := [], booking := [], review := [],
    inquiry := [], nextId := 1 }

/-- A stored FAQ document with identifier `i`, order `o`, question `q`. -/
def faqDoc (i : Nat) (o : Int) (q : String) : Doc :=
  [("_id", Value.oid i), ("order", Value.int o), ("question", Value.str q)]

/-- The specification test vector: orders `[3,1,1,2]` with the two
order-1 questions stored as `"b"` then `"a"`. -/
def wFaqDB : DB :=
  { trip := [], booking := [], review := [], inquiry := [], nextId := 5,
    faq := [faqDoc 1 3 "c", faqDoc 2 1 "b", faqDoc 3 1 "a", faqDoc 4 2 "d"] }

/-- The `wFaqDB` documents after identifier stringification, in
store-native order. -/
def wFaqPre : List Doc :=
  [[("_id", Value.str "1"), ("order", Value.int 3), ("question", Value.str "c")],
   [("_id", Value.str "2"), ("order", Value.int 1), ("question", Value.str "b")],
   [("_id", Value.str "3"), ("order", Value.int 1), ("question", Value.str "a")],
   [("_id", Value.str "4"), ("order", Value.int 2), ("question", Value.str "d")]]

/-- A store populated in each readable collection, to instantiate the
identifier-rendering claim. -/
def exDB7 : DB :=
  { trip := [[("_id", Value.oid 1), ("title", Value.str "t")]],
    faq := [[("_id", Value.oid 2), ("order", Value.int 1),
             ("question", Value.str "q")]],
    review := [[("_id", Value.oid 3), ("rating", Value.int 5)]],
    booking := [], inquiry := [], nextId := 4 }

/-- A stored FAQ document with identifier `i` and order `101 - i`, so
that store-native order runs opposite to the sort order. -/
def bigFaqDoc (i : Nat) : Doc :=
  [("_id", Value.oid i), ("order", Value.int (101 - (i : Int)))]

/-- A store holding 101 FAQ documents whose globally smallest sort key
(order 1) sits at store-native position 100, beyond the fetch limit. -/
def bigFaqDB : DB :=
  { trip := [], booking := [], review := [], inquiry := [], nextId := 200,
    faq := (List.range 101).map bigFaqDoc }

example : (create_booking exDB (exBooking 11)).2 =
    .error (.http 400 "Maximum capacity is 10 for this trip") := by decide

example : (create_booking exDB (exBooking 10)).2 =
    .ok { status := "received", id := 1 } := by decide

example : (create_booking exDB (exBooking 10)).1.booking =
    [withId 1 (exBooking 10).model_dump] := by decide

example : (seed (seed exDB)).faq.length = 4 ∧ (seed exDB).trip = exDB.trip := by decide

-- Helper lemmas about document field access.

theorem getVal_cons (p : String × Value) (ds : Doc) (k : String) :
    getVal (p :: ds) k = if p.1 = k then some p.2 else getVal ds k := by
  by_cases h : p.1 = k <;> simp [getVal, List.find?_cons, h]

theorem getVal_setVal_self (d : Doc) (k : String) (v w : Value)
    (h : getVal d k = some w) : getVal (setVal d k v) k = some v := by
  induction d with
  | nil => simp [getVal] at h
  | cons p ds ih =>
    by_cases hk : p.1 = k
    · simp [setVal, getVal_cons, hk]
    · rw [getVal_cons, if_neg hk] at h
      have : setVal (p :: ds) k v = p :: setVal ds k v := by
        simp [setVal, hk]
      rw [this, getVal_cons, if_neg hk]
      exact ih h

theorem getVal_setVal_ne (d : Doc) (k k2 : String) (v : Value)
    (h : k2 ≠ k) : getVal (setVal d k v) k2 = getVal d k2 := by
  induction d with
  | nil => simp [setVal, getVal]
  | cons p ds ih =>
    by_cases hk : p.1 = k
    · have : setVal (p :: ds) k v = (k, v) :: setVal ds k v := by
        simp [setVal, hk]
      rw [this, getVal_cons, getVal_cons, if_neg (fun hh => h hh.symm),
        if_neg (fun hh => h (hk ▸ hh).symm)]
      exact ih
    · have : setVal (p :: ds) k v = p :: setVal ds k v := by
        simp [setVal, hk]
      rw [this, getVal_cons, getVal_cons]
      by_cases hp : p.1 = k2
      · simp [hp]
      · simp [hp, ih]

-- Helper lemmas about the jsonify loop.

theorem jsonifyAll_mem_id (ds : List Doc) (l : List Doc)
    (h : jsonifyAll ds = some l) :
    ∀ d ∈ l, ∃ s, getVal d "_id" = some (Value.str s) := by
  induction ds generalizing l with
  | nil =>
    simp only [jsonifyAll, Option.some.injEq] at h
    subst h; simp
  | cons d ds ih =>
    simp only [jsonifyAll] at h
    cases hj : jsonifyId d with
    | none => rw [hj] at h; exact absurd h (by simp)
    | some d2 =>
      rw [hj] at h
      cases hrest : jsonifyAll ds with
      | none => rw [hrest] at h; exact absurd h (by simp)
      | some l2 =>
        rw [hrest] at h
        simp only [Option.map_some', Option.some.injEq] at h
        subst h
        intro x hx
        rcases List.mem_cons.mp hx with hx | hx
        · subst hx
          rcases Option.map_eq_some.mp hj with ⟨v, hv, hd2⟩
          exact ⟨v.render, hd2 ▸ getVal_setVal_self d "_id" _ v hv⟩
        · exact ih l2 hrest x hx

theorem jsonifyAll_of_ids (ds : List Doc)
    (h : ∀ d ∈ ds, (getVal d "_id").isSome = true) :
    jsonifyAll ds = some (ds.map jsonifyForce) := by
  induction ds with
  | nil => simp [jsonifyAll]
  | cons d ds ih =>
    have hd : (getVal d "_id").isSome = true := h d (List.mem_cons_self d ds)
    rcases Option.isSome_iff_exists.mp hd with ⟨v, hv⟩
    simp only [jsonifyAll, jsonifyId, hv, Option.map_some', List.map_cons,
      ih (fun x hx => h x (List.mem_cons_of_mem d hx)), jsonifyForce]

theorem jsonifyAll_length (ds l : List Doc) (h : jsonifyAll ds = some l) :
    l.length = ds.length := by
  induction ds generalizing l with
  | nil =>
    simp only [jsonifyAll, Option.some.injEq] at h
    subst h; rfl
  | cons d ds ih =>
    simp only [jsonifyAll] at h
    cases hj : jsonifyId d with
    | none => rw [hj] at h; exact absurd h (by simp)
    | some d2 =>
      rw [hj] at h
      cases hrest : jsonifyAll ds with
      | none => rw [hrest] at h; exact absurd h (by simp)
      | some l2 =>
        rw [hrest] at h
        simp only [Option.map_some', Option.some.injEq] at h
        subst h
        simp [ih l2 hrest]

-- C1 example store: see `exDB`, `exBooking` above.

-- Shared lemmas about the booking lookup.

theorem create_booking_of_no_match (db : DB) (p : Booking)
    (h : ∀ d ∈ db.trip, tripMatch p.trip_type d = false) :
    create_booking db p = (db, .error (.http 404 "Trip not found")) := by
  have hf : db.trip.find? (tripMatch p.trip_type) = Option.none := by
    rw [List.find?_eq_none]
    intro d hd
    simp [h d hd]
  unfold create_booking
  rw [hf]

theorem tripMatch_false_of_not_active (tt : String) (d : Doc)
    (hd : getVal d "is_active" ≠ some (Value.bool true)) :
    tripMatch tt d = false := by
  have h2 : (getVal d "is_active" == some (Value.bool true)) = false :=
    beq_eq_false_iff_ne.mpr hd
  simp [tripMatch, h2]

/-- C1: a booking for more people than the found trip's capacity `C` is
rejected with a 400 ValidationError whose message carries `C`, and the
store is unchanged (no Booking is written). -/
theorem booking_over_capacity_rejected (db : DB) (p : Booking)
    (trip : Doc) (C : Int)
    (hfind : db.trip.find? (tripMatch p.trip_type) = some trip)
    (hcap : getVal trip "capacity" = some (Value.int C))
    (hover : C < p.people_count) :
    create_booking db p =
      (db, .error (.http 400
        ("Maximum capacity is " ++ toString C ++ " for this trip"))) := by
  unfold create_booking
  rw [hfind]
  simp only [getValD, hcap, Option.getD_some, Value.toNum?]
  rw [if_pos (by exact_mod_cast hover)]
  simp [renderOpt, hcap, Value.render]

/-- C1 witness: the capacity-10 sunset trip rejects an 11-person
booking with the capacity message, leaving the store unchanged. -/
theorem booking_over_capacity_rejected_witness :
    create_booking exDB (exBooking 11) =
      (exDB, .error (.http 400 "Maximum capacity is 10 for this trip")) :=
  booking_over_capacity_rejected exDB (exBooking 11) exTripDoc 10
    (by decide) (by decide) (by decide)

/-- C2: when no trip document both matches the submission's `trip_type`
and stores `is_active = true`, the booking fails with 404 "Trip not
found" and the store is unchanged, whatever `people_count` is. -/
theorem booking_no_active_trip_not_found (db : DB) (p : Booking)
    (h : ∀ d ∈ db.trip,
      ¬(getVal d "trip_type" = some (Value.str p.trip_type) ∧
        getVal d "is_active" = some (Value.bool true))) :
    create_booking db p = (db, .error (.http 404 "Trip not found")) := by
  apply create_booking_of_no_match
  intro d hd
  by_cases h1 : getVal d "trip_type" = some (Value.str p.trip_type)
  · exact tripMatch_false_of_not_active p.trip_type d
      (fun h2 => h d hd ⟨h1, h2⟩)
  · have h2 : (getVal d "trip_type" == some (Value.str p.trip_type)) = false :=
      beq_eq_false_iff_ne.mpr h1
    simp [tripMatch, h2]

/-- C2 witness: a booking naming a `trip_type` with no stored trip at
all is rejected with 404. -/
theorem booking_no_active_trip_not_found_witness :
    create_booking emptyDB (exBooking 1) =
      (emptyDB, .error (.http 404 "Trip not found")) :=
  booking_no_active_trip_not_found emptyDB (exBooking 1) (by decide)

/-- C3: a booking within the found trip's capacity is persisted as a
new Booking document (appended to the booking collection with the
store-generated identifier), the response acknowledges with status
"received" and that identifier, the persisted document's `status` field
is the submission's, and a submission constructed without a `status`
carries the default `"pending"`. -/
theorem booking_within_capacity_persists (db : DB) (p : Booking)
    (trip : Doc) (C : Int)
    (hfind : db.trip.find? (tripMatch p.trip_type) = some trip)
    (hcap : getVal trip "capacity" = some (Value.int C))
    (hle : p.people_count ≤ C) :
    create_booking db p =
      ({ db with booking := db.booking ++ [withId db.nextId p.model_dump],
                 nextId := db.nextId + 1 },
       .ok { status := "received", id := db.nextId }) ∧
    getVal p.model_dump "status" = some (Value.str p.status) ∧
    (∀ tt n e ph dt pc nt,
      (Booking.ofInput tt n e ph dt pc nt Option.none).status = "pending") := by
  refine ⟨?_, by simp [Booking.model_dump, getVal], fun _ _ _ _ _ _ _ => rfl⟩
  unfold create_booking
  rw [hfind]
  simp only [getValD, hcap, Option.getD_some, Value.toNum?]
  rw [if_neg (by exact_mod_cast not_lt.mpr hle)]
  rfl

/-- C3 witness: a 10-person booking on the capacity-10 sunset trip is
accepted, appended to the booking collection, and acknowledged. -/
theorem booking_within_capacity_persists_witness :
    create_booking exDB (exBooking 10) =
      ({ exDB with
          booking := exDB.booking ++ [withId exDB.nextId (exBooking 10).model_dump],
          nextId := exDB.nextId + 1 },
       .ok { status := "received", id := exDB.nextId }) ∧
    getVal (exBooking 10).model_dump "status" =
      some (Value.str (exBooking 10).status) ∧
    (∀ tt n e ph dt pc nt,
      (Booking.ofInput tt n e ph dt pc nt Option.none).status = "pending") :=
  booking_within_capacity_persists exDB (exBooking 10) exTripDoc 10
    (by decide) (by decide) (by decide)


/-- C4 counterexample: when the found trip has no `capacity` field, the
booking is rejected, but the message renders the absent capacity as
`None` — `"Maximum capacity is None for this trip"` — not as `0` as the
claim states (`main.py` line 168 interpolates `trip.get('capacity')`
with no default, while line 167 compares against
`trip.get('capacity', 0)`). -/
theorem missing_capacity_message_counterexample :
    (create_booking noCapDB (exBooking 1)).2 =
      .error (.http 400 "Maximum capacity is None for this trip") ∧
    (create_booking noCapDB (exBooking 1)).2 ≠
      .error (.http 400 "Maximum capacity is 0 for this trip") := by
  constructor
  · decide
  · decide

/-- C4 (amended): when the lookup finds an active matching trip with no
`capacity` field, the missing capacity is treated as 0 in the
comparison, so any submission (`people_count ≥ 1`) fails with a 400
ValidationError and no write occurs; the message, however, renders the
absent capacity as `None`: "Maximum capacity is None for this trip". -/
theorem missing_capacity_rejected (db : DB) (p : Booking) (trip : Doc)
    (hfind : db.trip.find? (tripMatch p.trip_type) = some trip)
    (hcap : getVal trip "capacity" = Option.none)
    (hpos : 1 ≤ p.people_count) :
    create_booking db p =
      (db, .error (.http 400 "Maximum capacity is None for this trip")) := by
  unfold create_booking
  rw [hfind]
  simp only [getValD, hcap, Option.getD_none, Value.toNum?]
  rw [if_pos (by exact_mod_cast lt_of_lt_of_le zero_lt_one hpos)]
  simp [renderOpt, hcap]

/-- C4 (amended) witness: a 1-person booking against the stored trip
without a `capacity` field is rejected with the `None` message. -/
theorem missing_capacity_rejected_witness :
    create_booking noCapDB (exBooking 1) =
      (noCapDB, .error (.http 400 "Maximum capacity is None for this trip")) :=
  missing_capacity_rejected noCapDB (exBooking 1) noCapTripDoc
    (by decide) (by decide) (by decide)

/-- C8: the identifier-validation helper returns the parsed store-native
identifier exactly when the string parses, and otherwise — exactly on
parse failure — fails with a 400 "Invalid id" error. -/
theorem oid_parses_or_rejects (s : String) :
    (∃ v, parseObjectId s = some v ∧ oid s = .ok v) ∨
    (parseObjectId s = Option.none ∧
      oid s = .error (.http 400 "Invalid id")) := by
  cases h : parseObjectId s with
  | none => exact Or.inr ⟨rfl, by simp [oid, h]⟩
  | some v => exact Or.inl ⟨v, rfl, by simp [oid, h]⟩

/-- C9: the booking lookup's filter requires `is_active` to be stored as
literally `true`: a trip document whose `is_active` field is absent or
holds any other value never matches, and a store whose trip documents
all fail that test yields 404 "Trip not found" with no write — even
though the schema layer defaults `is_active` to `true` for the trips it
constructs. -/
theorem stored_is_active_required (db : DB) (p : Booking) (d : Doc)
    (hd : getVal d "is_active" ≠ some (Value.bool true))
    (hall : ∀ d2 ∈ db.trip, getVal d2 "is_active" ≠ some (Value.bool true)) :
    tripMatch p.trip_type d = false ∧
    create_booking db p = (db, .error (.http 404 "Trip not found")) ∧
    (∀ title tt desc loc ppp cap dur hi inc img,
      (Trip.ofInput title tt desc loc ppp cap dur hi inc img
        Option.none).is_active = true) := by
  refine ⟨tripMatch_false_of_not_active p.trip_type d hd, ?_,
    fun _ _ _ _ _ _ _ _ _ _ => rfl⟩
  exact create_booking_of_no_match db p
    (fun d2 hd2 => tripMatch_false_of_not_active p.trip_type d2 (hall d2 hd2))

/-- C9 witness: the trip document lacking `is_active` is not matched and
the booking against it is rejected with 404. -/
theorem stored_is_active_required_witness :
    tripMatch (exBooking 1).trip_type noActiveTripDoc = false ∧
    create_booking noActiveDB (exBooking 1) =
      (noActiveDB, .error (.http 404 "Trip not found")) ∧
    (∀ title tt desc loc ppp cap dur hi inc img,
      (Trip.ofInput title tt desc loc ppp cap dur hi inc img
        Option.none).is_active = true) :=
  stored_is_active_required noActiveDB (exBooking 1) noActiveTripDoc
    (by decide) (by decide)


-- Comparison lemmas for the FAQ sort.

theorem charsLt_irrefl (as : List Char) : charsLt as as = false := by
  induction as with
  | nil => rfl
  | cons a as ih => simp [charsLt, ih, lt_irrefl]

theorem charsLt_asymm (as bs : List Char) (h : charsLt as bs = true) :
    charsLt bs as = false := by
  induction as generalizing bs with
  | nil =>
    cases bs with
    | nil => simp [charsLt] at h
    | cons b bs => rfl
  | cons a as ih =>
    cases bs with
    | nil => simp [charsLt] at h
    | cons b bs =>
      simp only [charsLt, Bool.or_eq_true, Bool.and_eq_true, beq_iff_eq,
        decide_eq_true_eq] at h
      rcases h with h | ⟨h, h2⟩
      · have h1 : ¬ b < a := lt_asymm h
        have h3 : b ≠ a := ne_of_gt h
        simp [charsLt, h1, h3]
      · subst h
        simp [charsLt, lt_irrefl, ih bs h2]

theorem charsLt_cotrans (as cs : List Char) (h : charsLt as cs = true) :
    ∀ bs, charsLt as bs = true ∨ charsLt bs cs = true := by
  induction as generalizing cs with
  | nil =>
    intro bs
    cases cs with
    | nil => simp [charsLt] at h
    | cons c cs =>
      cases bs with
      | nil => exact Or.inr rfl
      | cons b bs => exact Or.inl rfl
  | cons a as ih =>
    intro bs
    cases cs with
    | nil => simp [charsLt] at h
    | cons c cs =>
      cases bs with
      | nil => exact Or.inr rfl
      | cons b bs =>
        simp only [charsLt, Bool.or_eq_true, Bool.and_eq_true, beq_iff_eq,
          decide_eq_true_eq] at h ⊢
        rcases lt_trichotomy a b with hab | hab | hab
        · exact Or.inl (Or.inl hab)
        · subst hab
          rcases h with h | ⟨hac, hrec⟩
          · exact Or.inr (Or.inl h)
          · rcases ih cs hrec bs with h1 | h1
            · exact Or.inl (Or.inr ⟨rfl, h1⟩)
            · exact Or.inr (Or.inr ⟨hac, h1⟩)
        · rcases h with h | ⟨hac, hrec⟩
          · exact Or.inr (Or.inl (lt_trans hab h))
          · exact Or.inr (Or.inl (hac ▸ hab))

theorem keyLe_trans (a b c : Int × String) (h1 : keyLe a b = true)
    (h2 : keyLe b c = true) : keyLe a c = true := by
  simp only [keyLe, strLt, Bool.or_eq_true, Bool.and_eq_true, beq_iff_eq,
    decide_eq_true_eq, Bool.not_eq_true'] at h1 h2 ⊢
  rcases h1 with h1 | ⟨h1, h1'⟩ <;> rcases h2 with h2 | ⟨h2, h2'⟩
  · exact Or.inl (h1.trans h2)
  · exact Or.inl (h2 ▸ h1)
  · exact Or.inl (h1 ▸ h2)
  · refine Or.inr ⟨h1.trans h2, ?_⟩
    by_contra hc
    rw [Bool.not_eq_false] at hc
    rcases charsLt_cotrans _ _ hc b.2.data with h | h
    · rw [h2'] at h
      exact absurd h (by decide)
    · rw [h1'] at h
      exact absurd h (by decide)

theorem keyLe_total (a b : Int × String) : keyLe a b || keyLe b a := by
  simp only [keyLe, strLt, Bool.or_eq_true, Bool.and_eq_true, beq_iff_eq,
    decide_eq_true_eq, Bool.not_eq_true']
  rcases lt_trichotomy a.1 b.1 with h | h | h
  · exact Or.inl (Or.inl h)
  · cases hc : charsLt b.2.data a.2.data with
    | false => exact Or.inl (Or.inr ⟨h, rfl⟩)
    | true => exact Or.inr (Or.inr ⟨h.symm, charsLt_asymm _ _ hc⟩)
  · exact Or.inr (Or.inl h)

theorem faqLe_trans (a b c : Doc) (h1 : faqLe a b) (h2 : faqLe b c) :
    faqLe a c :=
  keyLe_trans _ _ _ h1 h2

theorem faqLe_total (a b : Doc) : faqLe a b || faqLe b a :=
  keyLe_total _ _

theorem faqLe_of_key_eq (a b : Doc) (h : faqKey a = faqKey b) :
    faqLe a b = true := by
  simp [faqLe, keyLe, strLt, h, lt_irrefl, charsLt_irrefl]

/-- Stability of the FAQ sort, filter form: for any sort key, the
documents carrying that key come out in exactly their input order. -/
theorem filter_key_mergeSort (pre : List Doc) (k : Int × String) :
    (pre.mergeSort faqLe).filter (fun d => faqKey d == k) =
      pre.filter (fun d => faqKey d == k) := by
  have hpw : (pre.filter (fun d => faqKey d == k)).Pairwise
      (fun a b => faqLe a b = true) := by
    apply List.pairwise_of_forall_mem_list
    intro a ha b hb
    have hka := (List.mem_filter.mp ha).2
    have hkb := (List.mem_filter.mp hb).2
    exact faqLe_of_key_eq a b
      ((beq_iff_eq.mp hka).trans (beq_iff_eq.mp hkb).symm)
  have hsub : (pre.filter (fun d => faqKey d == k)).Sublist
      (pre.mergeSort faqLe) :=
    List.sublist_mergeSort faqLe_trans faqLe_total hpw (List.filter_sublist pre)
  have hself : (pre.filter (fun d => faqKey d == k)).filter
      (fun d => faqKey d == k) = pre.filter (fun d => faqKey d == k) :=
    List.filter_eq_self.mpr (fun a ha => (List.mem_filter.mp ha).2)
  have hsub2 : (pre.filter (fun d => faqKey d == k)).Sublist
      ((pre.mergeSort faqLe).filter (fun d => faqKey d == k)) := by
    have h2 := hsub.filter (fun d => faqKey d == k)
    rwa [hself] at h2
  have hperm := (List.mergeSort_perm pre faqLe).filter
    (fun d => faqKey d == k)
  exact (hsub2.eq_of_length hperm.length_eq.symm).symm

/-- C5: the FAQ listing returns at most 100 documents, sorted ascending
by the two-key `(order, question)` ordering — `order` primary,
lexicographic `question` as tie-break — and the sort is stable: for
every key, the documents carrying that key appear in the response in
their store-native relative order; a document missing `order` sorts as
order 0, and one missing `question` as the empty question. -/
theorem faq_listing_sorted_limited (db : DB) (pre : List Doc)
    (hpre : jsonifyAll (get_documents db.faq (some 100)) = some pre)
    (ht : ∀ d ∈ db.faq, faqTyped d = true) :
    get_faqs db = some (pre.mergeSort faqLe) ∧
    (pre.mergeSort faqLe).length ≤ 100 ∧
    (pre.mergeSort faqLe).Pairwise (fun a b => faqLe a b = true) ∧
    (∀ k : Int × String,
      (pre.mergeSort faqLe).filter (fun d => faqKey d == k) =
        pre.filter (fun d => faqKey d == k)) ∧
    (∀ d : Doc, getVal d "order" = Option.none → (faqKey d).1 = 0) ∧
    (∀ d : Doc, getVal d "question" = Option.none → (faqKey d).2 = "") := by
  refine ⟨?_, ?_, ?_, fun k => filter_key_mergeSort pre k, ?_, ?_⟩
  · simp [get_faqs, hpre]
  · rw [List.length_mergeSort, jsonifyAll_length _ _ hpre]
    simp [get_documents]
  · exact List.sorted_mergeSort faqLe_trans faqLe_total pre
  · intro d hd
    simp [faqKey, getValD, hd]
  · intro d hd
    simp [faqKey, getValD, hd]

/-- C5 witness: the listing behaviour on the specification's test
vector. -/
theorem faq_listing_sorted_limited_witness :
    get_faqs wFaqDB = some (wFaqPre.mergeSort faqLe) ∧
    (wFaqPre.mergeSort faqLe).length ≤ 100 ∧
    (wFaqPre.mergeSort faqLe).Pairwise (fun a b => faqLe a b = true) ∧
    (∀ k : Int × String,
      (wFaqPre.mergeSort faqLe).filter (fun d => faqKey d == k) =
        wFaqPre.filter (fun d => faqKey d == k)) ∧
    (∀ d : Doc, getVal d "order" = Option.none → (faqKey d).1 = 0) ∧
    (∀ d : Doc, getVal d "question" = Option.none → (faqKey d).2 = "") :=
  faq_listing_sorted_limited wFaqDB wFaqPre (by decide) (by decide)

example : faqLe (faqDoc 3 1 "a") (faqDoc 2 1 "b") = true ∧
    faqLe (faqDoc 2 1 "b") (faqDoc 3 1 "a") = false ∧
    faqLe (faqDoc 2 1 "b") (faqDoc 4 2 "d") = true ∧
    faqLe (faqDoc 1 3 "c") (faqDoc 4 2 "d") = false ∧
    faqKey [] = (0, "") := by decide


-- Seed lemmas.

theorem assignIds_length (start : Nat) (ds : List Doc) :
    (assignIds start ds).length = ds.length := by
  induction ds generalizing start with
  | nil => rfl
  | cons d ds ih => simp [assignIds, ih]

theorem seed_trip_eq (db : DB) :
    (seed db).trip =
      if db.trip.length = 0 then db.trip ++ assignIds db.nextId seed_trips
      else db.trip := by
  by_cases h1 : db.trip.length = 0 <;>
    by_cases h2 : db.faq.length = 0 <;>
      simp [seed, insertMany, h1, h2]

theorem seed_faq_eq (db : DB) :
    (seed db).faq =
      if db.faq.length = 0 then
        db.faq ++ assignIds
          (db.nextId + if db.trip.length = 0 then seed_trips.length else 0)
          seed_faqs
      else db.faq := by
  by_cases h1 : db.trip.length = 0 <;>
    by_cases h2 : db.faq.length = 0 <;>
      simp [seed, insertMany, h1, h2]

theorem seed_trip_nonempty (db : DB) : (seed db).trip.length ≠ 0 := by
  rw [seed_trip_eq]
  by_cases h1 : db.trip.length = 0
  · simp [h1, assignIds_length, seed_trips]
  · simp only [if_neg h1]
    exact h1

theorem seed_faq_nonempty (db : DB) : (seed db).faq.length ≠ 0 := by
  rw [seed_faq_eq]
  by_cases h2 : db.faq.length = 0
  · simp [h2, assignIds_length, seed_faqs]
  · simp only [if_neg h2]
    exact h2

theorem seed_of_nonempty (db : DB) (h1 : db.trip.length ≠ 0)
    (h2 : db.faq.length ≠ 0) : seed db = db := by
  simp [seed, h1, h2]

/-- C6: the seed routine appends its two hard-coded Trip documents to
the trip collection exactly when that collection holds zero documents at
its check, independently appends its four hard-coded FAQ documents
exactly when the faq collection holds zero documents, and running it a
second time on the post-seed state changes nothing (sequential
idempotence: no duplicate Trip or FAQ records). -/
theorem seed_fills_empty_and_idempotent (db : DB) :
    ((seed db).trip =
      if db.trip.length = 0 then db.trip ++ assignIds db.nextId seed_trips
      else db.trip) ∧
    ((seed db).faq =
      if db.faq.length = 0 then
        db.faq ++ assignIds
          (db.nextId + if db.trip.length = 0 then seed_trips.length else 0)
          seed_faqs
      else db.faq) ∧
    seed (seed db) = seed db :=
  ⟨seed_trip_eq db, seed_faq_eq db,
    seed_of_nonempty (seed db) (seed_trip_nonempty db) (seed_faq_nonempty db)⟩

/-- C7: every document produced by the trip, FAQ and review listings
carries its store-generated identifier as a plain string value, never as
a native store handle. -/
theorem listed_ids_are_strings (db : DB) :
    (∀ l, get_trips db = some l →
      ∀ d ∈ l, ∃ s, getVal d "_id" = some (Value.str s)) ∧
    (∀ l, get_faqs db = some l →
      ∀ d ∈ l, ∃ s, getVal d "_id" = some (Value.str s)) ∧
    (∀ l, get_reviews db = some l →
      ∀ d ∈ l, ∃ s, getVal d "_id" = some (Value.str s)) := by
  refine ⟨?_, ?_, ?_⟩
  · intro l hl
    exact jsonifyAll_mem_id _ l hl
  · intro l hl
    simp only [get_faqs, Option.map_eq_some'] at hl
    rcases hl with ⟨pre, hpre, hsort⟩
    intro d hd
    rw [← hsort] at hd
    exact jsonifyAll_mem_id _ pre hpre d (List.mem_mergeSort.mp hd)
  · intro l hl
    exact jsonifyAll_mem_id _ l hl

/-- C7 witness: the identifier of the single stored trip of `exDB7`
comes out of the trip listing as the plain string `"1"`. -/
theorem listed_ids_are_strings_witness :
    ∃ s, getVal [("_id", Value.str "1"), ("title", Value.str "t")] "_id" =
      some (Value.str s) :=
  (listed_ids_are_strings exDB7).1
    [[("_id", Value.str "1"), ("title", Value.str "t")]] (by decide)
    [("_id", Value.str "1"), ("title", Value.str "t")] (by decide)


-- C10: the fetch limit precedes the sort.

theorem getVal_bigFaqDoc_order (i : Nat) :
    getVal (jsonifyForce (bigFaqDoc i)) "order" =
      some (Value.int (101 - (i : Int))) := by
  have h : getVal (bigFaqDoc i) "_id" = some (Value.oid i) := by
    simp [bigFaqDoc, getVal]
  simp only [jsonifyForce, h]
  rw [getVal_setVal_ne _ _ _ _ (by decide)]
  simp [bigFaqDoc, getVal]

/-- C10: the FAQ listing applies its 100-document limit in store-native
order before sorting: the response is always the sort of the first 100
fetched documents; and on the concrete 101-document store `bigFaqDB`,
whose store-order-last document carries the globally smallest key
(order 1), that document is present in the store yet absent from the
response — so the response is not the 100 globally smallest documents
under the ordering. -/
theorem faq_limit_before_sort :
    (∀ db : DB, get_faqs db =
      (jsonifyAll (db.faq.take 100)).map (fun l => l.mergeSort faqLe)) ∧
    100 < bigFaqDB.faq.length ∧
    (∃ d ∈ bigFaqDB.faq, getVal d "order" = some (Value.int 1)) ∧
    (∀ l, get_faqs bigFaqDB = some l →
      ∀ d ∈ l, getVal d "order" ≠ some (Value.int 1)) := by
  refine ⟨fun db => rfl, by simp [bigFaqDB], ?_, ?_⟩
  · refine ⟨bigFaqDoc 100,
      List.mem_map_of_mem _ (List.mem_range.mpr (by omega)), ?_⟩
    show getVal (bigFaqDoc 100) "order" = some (Value.int 1)
    simp [bigFaqDoc, getVal]
  · intro l hl d hd
    have htake : bigFaqDB.faq.take 100 = (List.range 100).map bigFaqDoc := by
      show ((List.range 101).map bigFaqDoc).take 100 = _
      rw [← List.map_take]
      rw [show List.range 101 = List.range 100 ++ [100] from List.range_succ 100]
      rw [List.take_left' (by simp)]
    have hids : ∀ d2 ∈ (List.range 100).map bigFaqDoc,
        (getVal d2 "_id").isSome = true := by
      intro d2 hd2
      rcases List.mem_map.mp hd2 with ⟨i, _, rfl⟩
      simp [bigFaqDoc, getVal]
    have hfull : get_faqs bigFaqDB =
        some ((((List.range 100).map bigFaqDoc).map jsonifyForce).mergeSort
          faqLe) := by
      show (jsonifyAll (get_documents bigFaqDB.faq (some 100))).map
        (fun faqs => faqs.mergeSort faqLe) = _
      rw [show get_documents bigFaqDB.faq (some 100) = bigFaqDB.faq.take 100
        from rfl]
      rw [htake, jsonifyAll_of_ids _ hids]
      rfl
    rw [hl] at hfull
    have hl2 : l =
        (((List.range 100).map bigFaqDoc).map jsonifyForce).mergeSort faqLe :=
      Option.some.inj hfull
    rw [hl2] at hd
    have hd2 := List.mem_mergeSort.mp hd
    rcases List.mem_map.mp hd2 with ⟨d3, hd3, rfl⟩
    rcases List.mem_map.mp hd3 with ⟨i, hi, rfl⟩
    rw [getVal_bigFaqDoc_order i]
    intro hcontra
    have hi' := List.mem_range.mp hi
    have heq : (101 : Int) - (i : Int) = 1 := by
      have := Option.some.inj hcontra
      exact Value.int.inj this
    omega
